import Mathlib

/-!
Shallow embedding of the SX1301 LoRa concentrator driver
(drivers/net/lora/sx1301.c).

The physical serial bus is modelled by an `Oracle` that decides, per bus
operation (indexed by a monotonically increasing operation counter), whether
the operation succeeds and, for reads, which byte comes back.  Every issued
bus operation is recorded — successful or not — in an event trace `tr`,
mirroring the fact that the C code put the bytes on the wire before learning
the outcome.  The driver's only piece of mutable state relevant here is the
cached current page `priv->cur_page`, a `u8`; bytes are `Nat`s kept below
256 by explicit `% 256` truncation at the `u8` store points of the C code.

Register-channel wire framing (`reg & 0x7f` in the read path, `reg | BIT(7)`
in the write path) encodes the read/write direction in bit 7 of the first
byte; the trace records the register number (the low 7 bits) together with
the direction constructor, which carries the same information.
-/

namespace SX1301

/-- Error classification.  The bus transport can only produce
`transport code` errors (`code` is the errno from the underlying SPI call);
`enxio` (unexpected device) and `einval` (bad transaction length) originate
in the driver itself, so distinctness from transport failures is by
constructor. -/
inductive Err where
  | transport (code : Nat)
  | enxio
  | einval
deriving DecidableEq, Repr

/-- One issued bus operation: a register read or a register write of one
byte. -/
inductive Ev where
  | rd (reg : Nat)
  | wr (reg : Nat) (val : Nat)
deriving DecidableEq, Repr

/-- The bus transport: given the operation counter and the register (and
value, for writes), either succeed or fail with an errno.  Indexing by the
counter lets each individual operation of a run succeed or fail
independently. -/
structure Oracle where
  rd : Nat → Nat → Except Nat Nat
  wr : Nat → Nat → Nat → Except Nat Unit

/-- Driver-visible state threaded through every operation:
`page` is `priv->cur_page` (a `u8`), `time` the bus-operation counter,
`tr` the trace of issued bus operations, oldest first. -/
structure St where
  page : Nat
  time : Nat
  tr : List Ev
deriving DecidableEq, Repr

/-- Embedding of `sx1301_read`: one-byte register read.  `u8 addr = reg & 0x7f` is the
wire framing; the result is stored into a `u8`, hence the `% 256`. -/
def sx1301_read (o : Oracle) (reg : Nat) (s : St) : Except Err Nat × St :=
  let a := reg % 128
  let s' : St := { s with time := s.time + 1, tr := s.tr ++ [Ev.rd a] }
  match o.rd s.time a with
  | .ok v => (.ok (v % 256), s')
  | .error e => (.error (.transport e), s')

/-- Embedding of `sx1301_write`: one-byte register write.  `buf[0] = reg | BIT(7)` is the
wire framing (bit 7 = write direction); `buf[1] = val` truncates to `u8`. -/
def sx1301_write (o : Oracle) (reg val : Nat) (s : St) : Except Err Unit × St :=
  let a := reg % 128
  let v := val % 256
  let s' : St := { s with time := s.time + 1, tr := s.tr ++ [Ev.wr a v] }
  match o.wr s.time a v with
  | .ok _ => (.ok (), s')
  | .error e => (.error (.transport e), s')

def REG_PAGE_RESET : Nat := 0
def REG_VERSION : Nat := 1

/-- Constant `REG_PAGE_RESET_SOFT_RESET = BIT(7)`. -/
def REG_PAGE_RESET_SOFT_RESET : Nat := 128

/-- Embedding of `sx1301_page_switch`: if the cached page already equals the target
(as `u8`s), return success with no bus I/O; otherwise write `page & 0x3`
to the page-select register (address 0) and update the cache only on
success. -/
def sx1301_page_switch (o : Oracle) (page : Nat) (s : St) : Except Err Unit × St :=
  let p := page % 256
  if s.page = p then
    (.ok (), s)
  else
    match sx1301_write o REG_PAGE_RESET (p &&& 0x3) s with
    | (.ok _, s') => (.ok (), { s' with page := p })
    | (.error e, s') => (.error e, s')

/-- Embedding of `sx1301_soft_reset`: write the soft-reset bit to address 0.  Note the C
function does not touch `priv->cur_page`. -/
def sx1301_soft_reset (o : Oracle) (s : St) : Except Err Unit × St :=
  sx1301_write o REG_PAGE_RESET REG_PAGE_RESET_SOFT_RESET s

/- Radio block register offsets within a radio's 4-register window
(`REG_RADIO_X_*` in the C source). -/
def REG_RADIO_X_DATA : Nat := 0
def REG_RADIO_X_DATA_READBACK : Nat := 1
def REG_RADIO_X_ADDR : Nat := 2
def REG_RADIO_X_CS : Nat := 4

/-- Embedding of `struct spi_sx1301`: the Radio Block Descriptor — the page hosting the
radio's register window and the base register of that window.  The `parent`
SPI device is implicit: the `Oracle`/`St` arguments play its role. -/
structure SpiSx1301 where
  page : Nat
  regs : Nat
deriving DecidableEq, Repr

/-- Embedding of `sx1301_radio_set_cs`: switch to the block's page, read the block's
chip-select register (treating a failed read as 0), set or clear bit 0,
write the result back.  A failed write is only logged (`dev_warn`) — the
function returns 0 regardless; only a page-switch failure is returned. -/
def sx1301_radio_set_cs (o : Oracle) (ssx : SpiSx1301) (enable : Bool) (s : St) :
    Except Err Unit × St :=
  match sx1301_page_switch o ssx.page s with
  | (.error e, s1) => (.error e, s1)
  | (.ok _, s1) =>
    let rd := sx1301_read o (ssx.regs + REG_RADIO_X_CS) s1
    let cs : Nat := match rd.1 with
      | .ok v => v
      | .error _ => 0
    let cs' : Nat := if enable then cs ||| 1 else cs &&& 0xfe
    (.ok (), (sx1301_write o (ssx.regs + REG_RADIO_X_CS) cs' rd.2).2)

/-- Embedding of `sx1301_radio_spi_set_cs`: the `set_cs` callback exposed to the SPI
core (returns `void`).  `enable = true` returns immediately; only
`enable = false` reaches `sx1301_radio_set_cs`, whose error is merely
logged. -/
def sx1301_radio_spi_set_cs (o : Oracle) (ssx : SpiSx1301) (enable : Bool) (s : St) : St :=
  if enable then s
  else (sx1301_radio_set_cs o ssx false s).2

/-- Embedding of `struct spi_transfer` as used by the driver: a length, an optional
outgoing buffer (`tx_buf`, `none` = NULL) and an optional incoming buffer
(`rx_buf`, carrying its current contents, `none` = NULL). -/
structure Xfr where
  len : Nat
  tx : Option (List Nat)
  rx : Option (List Nat)
deriving DecidableEq, Repr

/-- Embedding of `sx1301_radio_spi_transfer_one`: reject lengths outside 1..3 before any
bus I/O; switch to the block's page; if there is an outgoing buffer, write
byte 0 to the block's address register, byte 1 (or 0 when `len < 2`) to the
block's data register, then assert and deassert chip-select; if there is an
incoming buffer, read the block's data-readback register into position
`len - 1`.  The returned `Option (List Nat)` is the incoming buffer after
the call (the C code mutates `rx_buf` in place). -/
def sx1301_radio_spi_transfer_one (o : Oracle) (ssx : SpiSx1301) (xfr : Xfr) (s : St) :
    Except Err Unit × Option (List Nat) × St :=
  if xfr.len = 0 ∨ xfr.len > 3 then
    (.error .einval, xfr.rx, s)
  else
    match sx1301_page_switch o ssx.page s with
    | (.error e, s1) => (.error e, xfr.rx, s1)
    | (.ok _, s1) =>
      let txRes : Except Err Unit × St :=
        match xfr.tx with
        | none => (.ok (), s1)
        | some buf =>
          match sx1301_write o (ssx.regs + REG_RADIO_X_ADDR) (buf.getD 0 0) s1 with
          | (.error e, s2) => (.error e, s2)
          | (.ok _, s2) =>
            match sx1301_write o (ssx.regs + REG_RADIO_X_DATA)
                (if 2 ≤ xfr.len then buf.getD 1 0 else 0) s2 with
            | (.error e, s3) => (.error e, s3)
            | (.ok _, s3) =>
              match sx1301_radio_set_cs o ssx true s3 with
              | (.error e, s4) => (.error e, s4)
              | (.ok _, s4) => sx1301_radio_set_cs o ssx false s4
      match txRes with
      | (.error e, s') => (.error e, xfr.rx, s')
      | (.ok _, s') =>
        match xfr.rx with
        | none => (.ok (), none, s')
        | some rbuf =>
          match sx1301_read o (ssx.regs + REG_RADIO_X_DATA_READBACK) s' with
          | (.error e, s'') => (.error e, some rbuf, s'')
          | (.ok v, s'') => (.ok (), some (rbuf.set (xfr.len - 1) v), s'')

/-- Sequencing helper for the bring-up: run the continuation on success,
propagate the first error otherwise (the C code's `if (ret) return ret;`
pattern). -/
def after {α β : Type} (x : Except Err α × St) (f : α → St → Except Err β × St) :
    Except Err β × St :=
  match x with
  | (.ok a, s) => f a s
  | (.error e, s) => (.error e, s)

def REG_16_GLOBAL_EN : Nat := 8
def REG_17_CLK32M_EN : Nat := 1
def REG_2_43_RADIO_A_EN : Nat := 1
def REG_2_43_RADIO_B_EN : Nat := 2
def REG_2_43_RADIO_RST : Nat := 4

/-- Embedding of `sx1301_probe`, restricted to its bus traffic: the GPIO reset pulse and
the `msleep` settling delays involve no register-channel I/O, and the SPI
controller allocation/registration that follows the bring-up sequence is
kernel registration plumbing outside the modelled core.  `~BIT(k)` applied
to a `u8` is embedded as `&&& (0xff ^^^ 2^k)`.  `priv->cur_page` is set to
the `0xff` sentinel right after the version check, as in the C code. -/
def sx1301_probe (o : Oracle) : Except Err Unit × St :=
  let s0 : St := { page := 0, time := 0, tr := [] }
  -- gpiod reset pulse, msleep(100) twice, spi_setup: no bus I/O
  after (sx1301_read o REG_VERSION s0) fun vver s =>
  if vver ≠ 103 then (.error .enxio, s)
  else
  let s : St := { s with page := 0xff }
  after (sx1301_write o REG_PAGE_RESET 0 s) fun _ s =>
  after (sx1301_soft_reset o s) fun _ s =>
  after (sx1301_read o 16 s) fun v16 s =>
  after (sx1301_write o 16 (v16 &&& (0xff ^^^ REG_16_GLOBAL_EN)) s) fun _ s =>
  after (sx1301_read o 17 s) fun v17 s =>
  after (sx1301_write o 17 (v17 &&& (0xff ^^^ REG_17_CLK32M_EN)) s) fun _ s =>
  after (sx1301_page_switch o 2 s) fun _ s =>
  after (sx1301_read o 43 s) fun va s =>
  after (sx1301_write o 43 (va ||| (REG_2_43_RADIO_B_EN ||| REG_2_43_RADIO_A_EN)) s) fun _ s =>
  -- msleep(500)
  after (sx1301_read o 43 s) fun vb s =>
  after (sx1301_write o 43 (vb ||| REG_2_43_RADIO_RST) s) fun _ s =>
  -- msleep(5)
  after (sx1301_read o 43 s) fun vc s =>
  after (sx1301_write o 43 (vc &&& (0xff ^^^ REG_2_43_RADIO_RST)) s) fun _ s =>
  (.ok (), s)

/-- The byte yielded by a chip-select register read at operation counter
`t`: the bus value truncated to `u8`, or 0 when the read fails — mirroring
the `cs = 0` fallback in `sx1301_radio_set_cs`.  Used to describe traces in
theorem statements. -/
def csRead (o : Oracle) (t : Nat) (ssx : SpiSx1301) : Nat :=
  match o.rd t ((ssx.regs + REG_RADIO_X_CS) % 128) with
  | .ok v => v % 256
  | .error _ => 0

/-! ### Characterization lemmas for the primitives -/

lemma sx1301_read_snd (o : Oracle) (reg : Nat) (s : St) :
    (sx1301_read o reg s).2 =
      { s with time := s.time + 1, tr := s.tr ++ [Ev.rd (reg % 128)] } := by
  cases h : o.rd s.time (reg % 128) <;> simp [sx1301_read, h]

lemma sx1301_read_ok_eq (o : Oracle) (reg : Nat) (s : St) (v : Nat)
    (h : o.rd s.time (reg % 128) = .ok v) :
    sx1301_read o reg s =
      (.ok (v % 256),
       { s with time := s.time + 1, tr := s.tr ++ [Ev.rd (reg % 128)] }) := by
  simp [sx1301_read, h]

lemma sx1301_read_err_eq (o : Oracle) (reg : Nat) (s : St) (e : Nat)
    (h : o.rd s.time (reg % 128) = .error e) :
    sx1301_read o reg s =
      (.error (.transport e),
       { s with time := s.time + 1, tr := s.tr ++ [Ev.rd (reg % 128)] }) := by
  simp [sx1301_read, h]

lemma sx1301_write_snd (o : Oracle) (reg val : Nat) (s : St) :
    (sx1301_write o reg val s).2 =
      { s with time := s.time + 1, tr := s.tr ++ [Ev.wr (reg % 128) (val % 256)] } := by
  cases h : o.wr s.time (reg % 128) (val % 256) <;> simp [sx1301_write, h]

lemma sx1301_write_ok_eq (o : Oracle) (reg val : Nat) (s : St) (u : Unit)
    (h : o.wr s.time (reg % 128) (val % 256) = .ok u) :
    sx1301_write o reg val s =
      (.ok (),
       { s with time := s.time + 1, tr := s.tr ++ [Ev.wr (reg % 128) (val % 256)] }) := by
  simp [sx1301_write, h]

lemma sx1301_write_err_eq (o : Oracle) (reg val : Nat) (s : St) (e : Nat)
    (h : o.wr s.time (reg % 128) (val % 256) = .error e) :
    sx1301_write o reg val s =
      (.error (.transport e),
       { s with time := s.time + 1, tr := s.tr ++ [Ev.wr (reg % 128) (val % 256)] }) := by
  simp [sx1301_write, h]

lemma page_switch_cached (o : Oracle) (page : Nat) (s : St) (h : s.page = page % 256) :
    sx1301_page_switch o page s = (.ok (), s) := by
  simp [sx1301_page_switch, h]

/-- With the block's page already cached, `sx1301_radio_set_cs` always
succeeds and issues exactly a CS read followed by a CS write whose value is
the (possibly defaulted-to-0) read byte with bit 0 set or cleared. -/
lemma radio_set_cs_cached (o : Oracle) (ssx : SpiSx1301) (en : Bool) (s : St)
    (hpage : s.page = ssx.page % 256) :
    sx1301_radio_set_cs o ssx en s =
      (.ok (), { s with time := s.time + 2,
                        tr := s.tr ++
                          [Ev.rd ((ssx.regs + REG_RADIO_X_CS) % 128),
                           Ev.wr ((ssx.regs + REG_RADIO_X_CS) % 128)
                             ((if en then csRead o s.time ssx ||| 1
                               else csRead o s.time ssx &&& 0xfe) % 256)] }) := by
  unfold sx1301_radio_set_cs
  rw [page_switch_cached o ssx.page s hpage]
  cases hr : o.rd s.time ((ssx.regs + REG_RADIO_X_CS) % 128) with
  | ok v =>
    simp [sx1301_read_ok_eq o _ s v hr, sx1301_write_snd, csRead, hr, List.append_assoc]
  | error e =>
    simp [sx1301_read_err_eq o _ s e hr, sx1301_write_snd, csRead, hr, List.append_assoc]

/-! ### Concrete oracles used to exercise the model -/

/-- Every read yields 0, every write succeeds. -/
def oAllOk : Oracle := ⟨fun _ _ => .ok 0, fun _ _ _ => .ok ()⟩

/-- Version register reads 103 (the expected identifier), all other reads
yield 0, every write succeeds. -/
def oGood : Oracle := ⟨fun _ r => .ok (if r = 1 then 103 else 0), fun _ _ _ => .ok ()⟩

/-- Version register reads 7: a successful read of a wrong identifier. -/
def oBadVersion : Oracle := ⟨fun _ _ => .ok 7, fun _ _ _ => .ok ()⟩

/-- Every read yields 0, every write fails with errno 5. -/
def oWrFail : Oracle := ⟨fun _ _ => .ok 0, fun _ _ _ => .error 5⟩

/-- Every read fails with errno 5, every write succeeds. -/
def oRdFail : Oracle := ⟨fun _ _ => .error 5, fun _ _ _ => .ok ()⟩

/-! ### Arithmetic helpers -/

lemma and_three_lt_256 (p : Nat) : p &&& 3 < 256 :=
  lt_of_le_of_lt Nat.and_le_right (by norm_num)

lemma mod_256_and_three (p : Nat) : (p &&& 3) % 256 = p &&& 3 :=
  Nat.mod_eq_of_lt (and_three_lt_256 p)

/-! ### C1 / C2: the Paged Register Store -/

/-- C1: a `switch_page` call issues a page-select write if and only if the
requested page differs from the cached current page: when the target equals
the cache the call returns success at once with the state (hence the trace
and operation counter) unchanged, and when it differs exactly one bus write
of `target &&& 0x3` to the page-select register (address 0) is issued. -/
theorem page_switch_write_iff (o : Oracle) (page : Nat) (s : St) :
    (s.page = page % 256 → sx1301_page_switch o page s = (.ok (), s)) ∧
    (s.page ≠ page % 256 →
      (sx1301_page_switch o page s).2.tr =
        s.tr ++ [Ev.wr REG_PAGE_RESET ((page % 256) &&& 0x3)] ∧
      (sx1301_page_switch o page s).2.time = s.time + 1) := by
  constructor
  · intro h
    simp [sx1301_page_switch, h]
  · intro h
    cases hw : o.wr s.time 0 ((page % 256) &&& 3) with
    | ok u =>
      simp [sx1301_page_switch, h, sx1301_write, mod_256_and_three, REG_PAGE_RESET, hw]
    | error e =>
      simp [sx1301_page_switch, h, sx1301_write, mod_256_and_three, REG_PAGE_RESET, hw]

/-- Witness for C1 at concrete inputs: with the page already cached the
call is the identity, and from the `0xff` sentinel a switch to page 2
issues the single write of `2` to address 0. -/
theorem page_switch_write_iff_witness :
    sx1301_page_switch oAllOk 2 ⟨2, 0, []⟩ = (.ok (), ⟨2, 0, []⟩) ∧
    (sx1301_page_switch oAllOk 2 ⟨0xff, 0, []⟩).2.tr = [Ev.wr 0 2] := by
  refine ⟨(page_switch_write_iff oAllOk 2 ⟨2, 0, []⟩).1 (by decide), ?_⟩
  have h := ((page_switch_write_iff oAllOk 2 ⟨0xff, 0, []⟩).2 (by decide)).1
  simpa [REG_PAGE_RESET] using h

/-- C2: when the page-select write fails, `switch_page` surfaces the
transport error, leaves the cached page at its previous value, and a
subsequent `switch_page` to the same target issues the page-select write
again (the failed switch left no false "already selected" state). -/
theorem page_switch_failed_write_retries (o : Oracle) (page : Nat) (s : St) (e : Nat)
    (hne : s.page ≠ page % 256)
    (hw : o.wr s.time 0 ((page % 256) &&& 3) = .error e) :
    sx1301_page_switch o page s =
      (.error (.transport e),
       { s with time := s.time + 1,
                tr := s.tr ++ [Ev.wr REG_PAGE_RESET ((page % 256) &&& 0x3)] }) ∧
    (sx1301_page_switch o page s).2.page = s.page ∧
    (sx1301_page_switch o page ((sx1301_page_switch o page s).2)).2.tr =
      s.tr ++ [Ev.wr REG_PAGE_RESET ((page % 256) &&& 0x3),
               Ev.wr REG_PAGE_RESET ((page % 256) &&& 0x3)] := by
  have h1 : sx1301_page_switch o page s =
      (.error (.transport e),
       { s with time := s.time + 1,
                tr := s.tr ++ [Ev.wr REG_PAGE_RESET ((page % 256) &&& 0x3)] }) := by
    simp [sx1301_page_switch, hne, sx1301_write, mod_256_and_three, REG_PAGE_RESET, hw]
  refine ⟨h1, by rw [h1], ?_⟩
  rw [h1]
  have h2 := (page_switch_write_iff o page
      { s with time := s.time + 1,
               tr := s.tr ++ [Ev.wr REG_PAGE_RESET ((page % 256) &&& 0x3)] }).2 hne
  rw [h2.1]
  simp

/-- Witness for C2: from the sentinel `0xff` with a failing bus, the switch
to page 2 errors out, the cache still holds `0xff`, and the retry issues a
second identical page-select write. -/
theorem page_switch_failed_write_retries_witness :
    sx1301_page_switch oWrFail 2 ⟨0xff, 0, []⟩ =
      (.error (.transport 5), ⟨0xff, 1, [Ev.wr 0 2]⟩) ∧
    (sx1301_page_switch oWrFail 2 ⟨0xff, 0, []⟩).2.page = 0xff ∧
    (sx1301_page_switch oWrFail 2 ((sx1301_page_switch oWrFail 2 ⟨0xff, 0, []⟩).2)).2.tr =
      [Ev.wr 0 2, Ev.wr 0 2] := by
  have h := page_switch_failed_write_retries oWrFail 2 ⟨0xff, 0, []⟩ 5 (by decide) (by rfl)
  refine ⟨?_, ?_, ?_⟩
  · rw [h.1]; simp [REG_PAGE_RESET]; decide
  · exact h.2.1
  · have h3 := h.2.2; rw [h3]; simp [REG_PAGE_RESET]; decide

/-! ### C9: invalid transaction lengths -/

/-- C9: a transaction whose length is 0 or exceeds 3 is rejected with the
invalid-argument error, the incoming buffer is untouched and the state —
cached page, operation counter and trace — is returned unchanged: zero bus
I/O is issued. -/
theorem transfer_one_invalid_len (o : Oracle) (ssx : SpiSx1301) (xfr : Xfr) (s : St)
    (h : xfr.len = 0 ∨ 3 < xfr.len) :
    sx1301_radio_spi_transfer_one o ssx xfr s = (.error .einval, xfr.rx, s) := by
  rcases h with h | h <;> simp [sx1301_radio_spi_transfer_one, h]

/-- Witness for C9 at lengths 0 and 4. -/
theorem transfer_one_invalid_len_witness :
    sx1301_radio_spi_transfer_one oAllOk ⟨2, 33⟩ ⟨0, none, none⟩ ⟨2, 0, []⟩ =
      (.error .einval, none, ⟨2, 0, []⟩) ∧
    sx1301_radio_spi_transfer_one oAllOk ⟨2, 33⟩ ⟨4, some [1, 2], none⟩ ⟨2, 0, []⟩ =
      (.error .einval, none, ⟨2, 0, []⟩) :=
  ⟨transfer_one_invalid_len oAllOk ⟨2, 33⟩ ⟨0, none, none⟩ ⟨2, 0, []⟩ (by decide),
   transfer_one_invalid_len oAllOk ⟨2, 33⟩ ⟨4, some [1, 2], none⟩ ⟨2, 0, []⟩ (by decide)⟩

/-! ### C5: version check during bring-up -/

/-- C5: when the version register (address 1) reads successfully but the
byte is not 103, bring-up stops with the "unexpected device" error `enxio`
— an error distinct from every transport failure — and the whole bus trace
is the single version read: none of the later bring-up steps issues any
bus I/O. -/
theorem probe_version_mismatch (o : Oracle) (v : Nat)
    (hrd : o.rd 0 1 = .ok v) (hv : v % 256 ≠ 103) :
    sx1301_probe o = (.error .enxio, { page := 0, time := 1, tr := [Ev.rd REG_VERSION] }) ∧
    ∀ e, Err.enxio ≠ Err.transport e := by
  constructor
  · simp [sx1301_probe, after, sx1301_read, REG_VERSION, hrd, hv]
  · exact fun e h => Err.noConfusion h

/-- Witness for C5: a device whose version register reads 7. -/
theorem probe_version_mismatch_witness :
    sx1301_probe oBadVersion =
      (.error .enxio, { page := 0, time := 1, tr := [Ev.rd 1] }) ∧
    Err.enxio ≠ Err.transport 5 := by
  have h := probe_version_mismatch oBadVersion 7 (by rfl) (by decide)
  exact ⟨by simpa [REG_VERSION] using h.1, h.2 5⟩

/-! ### C4: soft reset and the page cache -/

/-- C4 counterexample: from a state whose cached page is 2, a successful
`soft_reset` leaves the cache at 2 — it is not set back to the `0xff`
sentinel, contrary to the claim. -/
theorem soft_reset_does_not_invalidate_cache :
    (sx1301_soft_reset oAllOk ⟨2, 0, []⟩).1 = .ok () ∧
    (sx1301_soft_reset oAllOk ⟨2, 0, []⟩).2.page = 2 ∧ (2 : Nat) ≠ 0xff :=
  ⟨rfl, rfl, by decide⟩

/-- C4 (amended): `soft_reset` writes the soft-reset bit pattern (bit 7) to
address 0 bypassing page tracking, and leaves the cached current page
unchanged — it does not invalidate it.  During bring-up the cache still
holds the `0xff` sentinel when `soft_reset` runs, so the subsequent
`switch_page` to page 2 does issue an explicit page-select write, as the
full bring-up trace under an all-zero well-behaved device shows (the write
`Ev.wr 0 2` following the soft-reset write `Ev.wr 0 128`). -/
theorem soft_reset_cache_unchanged (o : Oracle) (s : St) :
    (sx1301_soft_reset o s).2.page = s.page ∧
    (sx1301_soft_reset o s).2.tr =
      s.tr ++ [Ev.wr REG_PAGE_RESET REG_PAGE_RESET_SOFT_RESET] ∧
    (sx1301_probe oGood).2.tr =
      [Ev.rd 1, Ev.wr 0 0, Ev.wr 0 128, Ev.rd 16, Ev.wr 16 0, Ev.rd 17, Ev.wr 17 0,
       Ev.wr 0 2, Ev.rd 43, Ev.wr 43 3, Ev.rd 43, Ev.wr 43 4, Ev.rd 43, Ev.wr 43 0] := by
  refine ⟨?_, ?_, by rfl⟩
  · cases hw : o.wr s.time 0 128 with
    | ok u =>
      simp [sx1301_soft_reset, sx1301_write, REG_PAGE_RESET, REG_PAGE_RESET_SOFT_RESET, hw]
    | error e =>
      simp [sx1301_soft_reset, sx1301_write, REG_PAGE_RESET, REG_PAGE_RESET_SOFT_RESET, hw]
  · cases hw : o.wr s.time 0 128 with
    | ok u =>
      simp [sx1301_soft_reset, sx1301_write, REG_PAGE_RESET, REG_PAGE_RESET_SOFT_RESET, hw]
    | error e =>
      simp [sx1301_soft_reset, sx1301_write, REG_PAGE_RESET, REG_PAGE_RESET_SOFT_RESET, hw]

/-! ### C3: chip-select error handling -/

/-- C3 counterexample: with the block's page already cached, a CS
read-modify-write whose read succeeds and whose write fails: the failing
write is issued (it appears in the trace) yet `sx1301_radio_set_cs` still
returns success — the chip-select write failure is not reported as an
error to the caller, contrary to the claim. -/
theorem radio_set_cs_swallows_write_failure :
    (sx1301_radio_set_cs oWrFail ⟨2, 33⟩ true ⟨2, 0, []⟩).1 = .ok () ∧
    oWrFail.wr 1 37 1 = .error 5 ∧
    (sx1301_radio_set_cs oWrFail ⟨2, 33⟩ true ⟨2, 0, []⟩).2.tr =
      [Ev.rd 37, Ev.wr 37 1] :=
  ⟨rfl, rfl, rfl⟩

/-- C3 (amended): a failed chip-select register read does not abort the
operation — the CS value is treated as 0 and the modified value (1 on
assert, 0 on deassert) is still written back; the subsequent write failure,
however, is only logged: `sx1301_radio_set_cs` returns success regardless
of the write's outcome, and only a page-switch failure is returned as an
error to the caller. -/
theorem radio_set_cs_read_fail_degrades (o : Oracle) (ssx : SpiSx1301) (en : Bool)
    (s : St) (e : Nat)
    (hpage : s.page = ssx.page % 256)
    (hrd : o.rd s.time ((ssx.regs + REG_RADIO_X_CS) % 128) = .error e) :
    sx1301_radio_set_cs o ssx en s =
      (.ok (), { s with time := s.time + 2,
                        tr := s.tr ++
                          [Ev.rd ((ssx.regs + REG_RADIO_X_CS) % 128),
                           Ev.wr ((ssx.regs + REG_RADIO_X_CS) % 128)
                             (if en then 1 else 0)] }) := by
  cases hw : o.wr (s.time + 1) ((ssx.regs + REG_RADIO_X_CS) % 128)
      ((if en then 0 ||| 1 else 0 &&& 0xfe) % 256) with
  | ok u =>
    cases en <;>
      simp_all [sx1301_radio_set_cs, sx1301_page_switch, sx1301_read, sx1301_write]
  | error e2 =>
    cases en <;>
      simp_all [sx1301_radio_set_cs, sx1301_page_switch, sx1301_read, sx1301_write]

/-- Witness for C3's amended theorem: a bus whose reads all fail; the
deassert still writes 0 to the CS register and the call reports success. -/
theorem radio_set_cs_read_fail_degrades_witness :
    sx1301_radio_set_cs oRdFail ⟨2, 33⟩ false ⟨2, 0, []⟩ =
      (.ok (), ⟨2, 2, [Ev.rd 37, Ev.wr 37 0]⟩) := by
  have h := radio_set_cs_read_fail_degrades oRdFail ⟨2, 33⟩ false ⟨2, 0, []⟩ 5
    (by decide) (by rfl)
  simpa [REG_RADIO_X_CS] using h

/-- Full characterization of `sx1301_radio_spi_transfer_one` when the
length is valid, the transaction has outgoing bytes, the block's page is
already cached, and both the address and the data write succeed: the
outgoing phase issues exactly address write, data write, CS read,
CS assert write, CS read, CS deassert write — and only then, if an
incoming buffer exists, the single readback read. -/
lemma transfer_one_tx_ok_eq (o : Oracle) (ssx : SpiSx1301) (xfr : Xfr) (s : St)
    (buf : List Nat) (u1 u2 : Unit)
    (hlen : ¬(xfr.len = 0 ∨ 3 < xfr.len))
    (htx : xfr.tx = some buf)
    (hpage : s.page = ssx.page % 256)
    (hw1 : o.wr s.time ((ssx.regs + REG_RADIO_X_ADDR) % 128) (buf.getD 0 0 % 256) = .ok u1)
    (hw2 : o.wr (s.time + 1) ((ssx.regs + REG_RADIO_X_DATA) % 128)
        ((if 2 ≤ xfr.len then buf.getD 1 0 else 0) % 256) = .ok u2) :
    sx1301_radio_spi_transfer_one o ssx xfr s =
      (let s6 : St :=
        { s with time := s.time + 6,
                 tr := s.tr ++
                   [Ev.wr ((ssx.regs + REG_RADIO_X_ADDR) % 128) (buf.getD 0 0 % 256),
                    Ev.wr ((ssx.regs + REG_RADIO_X_DATA) % 128)
                      ((if 2 ≤ xfr.len then buf.getD 1 0 else 0) % 256),
                    Ev.rd ((ssx.regs + REG_RADIO_X_CS) % 128),
                    Ev.wr ((ssx.regs + REG_RADIO_X_CS) % 128)
                      ((csRead o (s.time + 2) ssx ||| 1) % 256),
                    Ev.rd ((ssx.regs + REG_RADIO_X_CS) % 128),
                    Ev.wr ((ssx.regs + REG_RADIO_X_CS) % 128)
                      ((csRead o (s.time + 4) ssx &&& 0xfe) % 256)] }
      match xfr.rx with
      | none => (.ok (), none, s6)
      | some rbuf =>
        match sx1301_read o (ssx.regs + REG_RADIO_X_DATA_READBACK) s6 with
        | (.error e, s7) => (.error e, some rbuf, s7)
        | (.ok v, s7) => (.ok (), some (rbuf.set (xfr.len - 1) v), s7)) := by
  simp only [sx1301_radio_spi_transfer_one, if_neg hlen, htx,
    page_switch_cached o ssx.page s hpage]
  rw [sx1301_write_ok_eq o (ssx.regs + REG_RADIO_X_ADDR) (buf.getD 0 0) s u1 hw1]
  simp only []
  rw [sx1301_write_ok_eq o (ssx.regs + REG_RADIO_X_DATA)
    (if 2 ≤ xfr.len then buf.getD 1 0 else 0)
    { s with time := s.time + 1,
             tr := s.tr ++ [Ev.wr ((ssx.regs + REG_RADIO_X_ADDR) % 128) (buf.getD 0 0 % 256)] }
    u2 hw2]
  simp only []
  rw [radio_set_cs_cached o ssx true _ (by simpa using hpage)]
  simp only []
  rw [radio_set_cs_cached o ssx false _ (by simpa using hpage)]
  simp only [sx1301_read_snd, List.append_assoc, List.cons_append, List.nil_append]
  norm_num

/-! ### C6: outgoing-phase sequencing -/

/-- C6: for a transaction carrying outgoing bytes (valid length, block page
cached), the outgoing phase is exactly: write byte 0 to the block's address
register, write byte 1 (or 0 when the length is 1) to the block's data
register, assert chip-select, deassert chip-select.  The first failing step
aborts the transaction with that transport error and no later step of the
sequence runs; when the writes succeed the full outgoing sequence is issued
in order and any incoming readback comes strictly after it. -/
theorem transfer_one_outgoing_sequence (o : Oracle) (ssx : SpiSx1301) (xfr : Xfr)
    (s : St) (buf : List Nat)
    (hlen : ¬(xfr.len = 0 ∨ 3 < xfr.len))
    (htx : xfr.tx = some buf)
    (hpage : s.page = ssx.page % 256) :
    (∀ e, o.wr s.time ((ssx.regs + REG_RADIO_X_ADDR) % 128) (buf.getD 0 0 % 256) =
        .error e →
      sx1301_radio_spi_transfer_one o ssx xfr s =
        (.error (.transport e), xfr.rx,
         { s with time := s.time + 1,
                  tr := s.tr ++
                    [Ev.wr ((ssx.regs + REG_RADIO_X_ADDR) % 128)
                      (buf.getD 0 0 % 256)] })) ∧
    (∀ u e, o.wr s.time ((ssx.regs + REG_RADIO_X_ADDR) % 128) (buf.getD 0 0 % 256) =
        .ok u →
      o.wr (s.time + 1) ((ssx.regs + REG_RADIO_X_DATA) % 128)
          ((if 2 ≤ xfr.len then buf.getD 1 0 else 0) % 256) = .error e →
      sx1301_radio_spi_transfer_one o ssx xfr s =
        (.error (.transport e), xfr.rx,
         { s with time := s.time + 2,
                  tr := s.tr ++
                    [Ev.wr ((ssx.regs + REG_RADIO_X_ADDR) % 128) (buf.getD 0 0 % 256),
                     Ev.wr ((ssx.regs + REG_RADIO_X_DATA) % 128)
                       ((if 2 ≤ xfr.len then buf.getD 1 0 else 0) % 256)] })) ∧
    (∀ u1 u2, o.wr s.time ((ssx.regs + REG_RADIO_X_ADDR) % 128) (buf.getD 0 0 % 256) =
        .ok u1 →
      o.wr (s.time + 1) ((ssx.regs + REG_RADIO_X_DATA) % 128)
          ((if 2 ≤ xfr.len then buf.getD 1 0 else 0) % 256) = .ok u2 →
      (sx1301_radio_spi_transfer_one o ssx xfr s).2.2.tr =
        s.tr ++
          [Ev.wr ((ssx.regs + REG_RADIO_X_ADDR) % 128) (buf.getD 0 0 % 256),
           Ev.wr ((ssx.regs + REG_RADIO_X_DATA) % 128)
             ((if 2 ≤ xfr.len then buf.getD 1 0 else 0) % 256),
           Ev.rd ((ssx.regs + REG_RADIO_X_CS) % 128),
           Ev.wr ((ssx.regs + REG_RADIO_X_CS) % 128)
             ((csRead o (s.time + 2) ssx ||| 1) % 256),
           Ev.rd ((ssx.regs + REG_RADIO_X_CS) % 128),
           Ev.wr ((ssx.regs + REG_RADIO_X_CS) % 128)
             ((csRead o (s.time + 4) ssx &&& 0xfe) % 256)] ++
          (match xfr.rx with
           | none => []
           | some _ => [Ev.rd ((ssx.regs + REG_RADIO_X_DATA_READBACK) % 128)])) := by
  refine ⟨?_, ?_, ?_⟩
  · intro e hw1
    simp only [sx1301_radio_spi_transfer_one, if_neg hlen, htx,
      page_switch_cached o ssx.page s hpage]
    rw [sx1301_write_err_eq o (ssx.regs + REG_RADIO_X_ADDR) (buf.getD 0 0) s e hw1]
  · intro u e hw1 hw2
    simp only [sx1301_radio_spi_transfer_one, if_neg hlen, htx,
      page_switch_cached o ssx.page s hpage]
    rw [sx1301_write_ok_eq o (ssx.regs + REG_RADIO_X_ADDR) (buf.getD 0 0) s u hw1]
    simp only []
    rw [sx1301_write_err_eq o (ssx.regs + REG_RADIO_X_DATA)
      (if 2 ≤ xfr.len then buf.getD 1 0 else 0)
      { s with time := s.time + 1,
               tr := s.tr ++
                 [Ev.wr ((ssx.regs + REG_RADIO_X_ADDR) % 128) (buf.getD 0 0 % 256)] }
      e hw2]
    simp [List.append_assoc]
  · intro u1 u2 hw1 hw2
    rw [transfer_one_tx_ok_eq o ssx xfr s buf u1 u2 hlen htx hpage hw1 hw2]
    cases hrx : xfr.rx with
    | none => simp
    | some rbuf =>
      cases hr : o.rd (s.time + 6) ((ssx.regs + REG_RADIO_X_DATA_READBACK) % 128) with
      | ok v =>
        simp only []
        rw [sx1301_read_ok_eq o (ssx.regs + REG_RADIO_X_DATA_READBACK) _ v hr]
      | error e =>
        simp only []
        rw [sx1301_read_err_eq o (ssx.regs + REG_RADIO_X_DATA_READBACK) _ e hr]

/-- Witness for C6: radio A's descriptor (page 2, block base 33), length-2
transaction with outgoing bytes `[0xAA, 0xBB]` on an all-succeeding bus:
the trace is the full outgoing sequence (no readback, `rx = none`). -/
theorem transfer_one_outgoing_sequence_witness :
    (sx1301_radio_spi_transfer_one oAllOk ⟨2, 33⟩ ⟨2, some [0xAA, 0xBB], none⟩
        ⟨2, 0, []⟩).2.2.tr =
      [Ev.wr 35 0xAA, Ev.wr 33 0xBB, Ev.rd 37, Ev.wr 37 1, Ev.rd 37, Ev.wr 37 0] := by
  have h := (transfer_one_outgoing_sequence oAllOk ⟨2, 33⟩ ⟨2, some [0xAA, 0xBB], none⟩
    ⟨2, 0, []⟩ [0xAA, 0xBB] (by decide) (by rfl) (by decide)).2.2 () () (by rfl) (by rfl)
  simpa [REG_RADIO_X_ADDR, REG_RADIO_X_DATA, REG_RADIO_X_CS, csRead, oAllOk] using h

/-! ### C7: readback placement -/

/-- C7: for a transaction with an incoming buffer (valid length, block page
cached), the data-readback register is read exactly once and its byte is
stored at index `len - 1` of the incoming buffer — whether or not an
outgoing phase also occurred — and the readback writes no other position of
the incoming buffer. -/
theorem transfer_one_readback (o : Oracle) (ssx : SpiSx1301) (xfr : Xfr)
    (s : St) (rbuf : List Nat)
    (hlen : ¬(xfr.len = 0 ∨ 3 < xfr.len))
    (hrx : xfr.rx = some rbuf)
    (hpage : s.page = ssx.page % 256) :
    (xfr.tx = none →
      ∀ v, o.rd s.time ((ssx.regs + REG_RADIO_X_DATA_READBACK) % 128) = .ok v →
      sx1301_radio_spi_transfer_one o ssx xfr s =
        (.ok (), some (rbuf.set (xfr.len - 1) (v % 256)),
         { s with time := s.time + 1,
                  tr := s.tr ++
                    [Ev.rd ((ssx.regs + REG_RADIO_X_DATA_READBACK) % 128)] })) ∧
    (∀ buf u1 u2 v, xfr.tx = some buf →
      o.wr s.time ((ssx.regs + REG_RADIO_X_ADDR) % 128) (buf.getD 0 0 % 256) = .ok u1 →
      o.wr (s.time + 1) ((ssx.regs + REG_RADIO_X_DATA) % 128)
          ((if 2 ≤ xfr.len then buf.getD 1 0 else 0) % 256) = .ok u2 →
      o.rd (s.time + 6) ((ssx.regs + REG_RADIO_X_DATA_READBACK) % 128) = .ok v →
      (sx1301_radio_spi_transfer_one o ssx xfr s).1 = .ok () ∧
      (sx1301_radio_spi_transfer_one o ssx xfr s).2.1 =
        some (rbuf.set (xfr.len - 1) (v % 256)) ∧
      ((sx1301_radio_spi_transfer_one o ssx xfr s).2.2.tr.filter
          (fun ev => ev = Ev.rd ((ssx.regs + REG_RADIO_X_DATA_READBACK) % 128))).length =
        (s.tr.filter
          (fun ev => ev = Ev.rd ((ssx.regs + REG_RADIO_X_DATA_READBACK) % 128))).length
          + 1) ∧
    (∀ w j, j ≠ xfr.len - 1 → (rbuf.set (xfr.len - 1) w)[j]? = rbuf[j]?) := by
  refine ⟨?_, ?_, ?_⟩
  · intro htx v hr
    simp only [sx1301_radio_spi_transfer_one, if_neg hlen, htx, hrx,
      page_switch_cached o ssx.page s hpage]
    rw [sx1301_read_ok_eq o (ssx.regs + REG_RADIO_X_DATA_READBACK) s v hr]
  · intro buf u1 u2 v htx hw1 hw2 hr
    rw [transfer_one_tx_ok_eq o ssx xfr s buf u1 u2 hlen htx hpage hw1 hw2]
    simp only [hrx]
    rw [sx1301_read_ok_eq o (ssx.regs + REG_RADIO_X_DATA_READBACK) _ v hr]
    refine ⟨rfl, rfl, ?_⟩
    have hABcs : Ev.rd ((ssx.regs + REG_RADIO_X_CS) % 128) ≠
        Ev.rd ((ssx.regs + REG_RADIO_X_DATA_READBACK) % 128) := by
      intro h
      injection h with h
      simp only [REG_RADIO_X_CS, REG_RADIO_X_DATA_READBACK] at h
      omega
    simp [List.filter_append, hABcs]
  · intro w j hj
    exact List.getElem?_set_ne (fun h => hj h.symm) ..

/-- Witness for C7: radio A, length 3, outgoing `[0xAA, 0xBB]`, readback
byte `0xCC` (via an oracle whose readback register yields `0xCC`): the
incoming buffer `[0, 0, 0]` becomes `[0, 0, 0xCC]`. -/
theorem transfer_one_readback_witness :
    (sx1301_radio_spi_transfer_one
        ⟨fun _ r => .ok (if r = 34 then 0xCC else 0), fun _ _ _ => .ok ()⟩
        ⟨2, 33⟩ ⟨3, some [0xAA, 0xBB], some [0, 0, 0]⟩ ⟨2, 0, []⟩).2.1 =
      some [0, 0, 0xCC] ∧
    (∀ j, j ≠ 2 → (([0, 0, 0] : List Nat).set 2 0xCC)[j]? = ([0, 0, 0] : List Nat)[j]?) := by
  have h := transfer_one_readback
    ⟨fun _ r => .ok (if r = 34 then 0xCC else 0), fun _ _ _ => .ok ()⟩
    ⟨2, 33⟩ ⟨3, some [0xAA, 0xBB], some [0, 0, 0]⟩ ⟨2, 0, []⟩ [0, 0, 0]
    (by decide) (by rfl) (by decide)
  have h2 := h.2.1 [0xAA, 0xBB] () () 0xCC (by rfl) (by rfl) (by rfl) (by rfl)
  exact ⟨h2.2.1, fun j hj => h.2.2 0xCC j hj⟩

/-! ### C10: chip-select discipline -/

lemma csRead_lt_256 (o : Oracle) (t : Nat) (ssx : SpiSx1301) : csRead o t ssx < 256 := by
  cases h : o.rd t ((ssx.regs + REG_RADIO_X_CS) % 128) <;> simp [csRead, h] <;> omega

lemma or_one_odd (x : Nat) : (x ||| 1) % 2 = 1 := by
  have h : (x ||| 1).testBit 0 = true := by
    simp [Nat.testBit_lor]
  simpa [Nat.testBit_zero] using h

lemma and_fe_even (x : Nat) : (x &&& 0xfe) % 2 = 0 := by
  have h : (x &&& 0xfe).testBit 0 = false := by
    simp [Nat.testBit_land]
  simp only [Nat.testBit_zero, decide_eq_false_iff_not] at h
  omega

lemma or_one_lt_256 (x : Nat) (h : x < 256) : x ||| 1 < 256 := by
  have hx : x < 2 ^ 8 := by norm_num; omega
  have h1 : (1 : Nat) < 2 ^ 8 := by norm_num
  have h2 := Nat.or_lt_two_pow hx h1
  norm_num at h2
  exact h2

lemma and_fe_lt_256 (x : Nat) : x &&& 0xfe < 256 :=
  lt_of_le_of_lt Nat.and_le_right (by norm_num)

/-- Trace of a completed outgoing phase (shared by several theorems). -/
lemma transfer_one_tx_ok_trace (o : Oracle) (ssx : SpiSx1301) (xfr : Xfr)
    (s : St) (buf : List Nat) (u1 u2 : Unit)
    (hlen : ¬(xfr.len = 0 ∨ 3 < xfr.len))
    (htx : xfr.tx = some buf)
    (hpage : s.page = ssx.page % 256)
    (hw1 : o.wr s.time ((ssx.regs + REG_RADIO_X_ADDR) % 128) (buf.getD 0 0 % 256) = .ok u1)
    (hw2 : o.wr (s.time + 1) ((ssx.regs + REG_RADIO_X_DATA) % 128)
        ((if 2 ≤ xfr.len then buf.getD 1 0 else 0) % 256) = .ok u2) :
    (sx1301_radio_spi_transfer_one o ssx xfr s).2.2.tr =
      s.tr ++
        [Ev.wr ((ssx.regs + REG_RADIO_X_ADDR) % 128) (buf.getD 0 0 % 256),
         Ev.wr ((ssx.regs + REG_RADIO_X_DATA) % 128)
           ((if 2 ≤ xfr.len then buf.getD 1 0 else 0) % 256),
         Ev.rd ((ssx.regs + REG_RADIO_X_CS) % 128),
         Ev.wr ((ssx.regs + REG_RADIO_X_CS) % 128)
           ((csRead o (s.time + 2) ssx ||| 1) % 256),
         Ev.rd ((ssx.regs + REG_RADIO_X_CS) % 128),
         Ev.wr ((ssx.regs + REG_RADIO_X_CS) % 128)
           ((csRead o (s.time + 4) ssx &&& 0xfe) % 256)] ++
        (match xfr.rx with
         | none => []
         | some _ => [Ev.rd ((ssx.regs + REG_RADIO_X_DATA_READBACK) % 128)]) := by
  rw [transfer_one_tx_ok_eq o ssx xfr s buf u1 u2 hlen htx hpage hw1 hw2]
  cases hrx : xfr.rx with
  | none => simp
  | some rbuf =>
    cases hr : o.rd (s.time + 6) ((ssx.regs + REG_RADIO_X_DATA_READBACK) % 128) with
    | ok v =>
      simp only []
      rw [sx1301_read_ok_eq o (ssx.regs + REG_RADIO_X_DATA_READBACK) _ v hr]
    | error e =>
      simp only []
      rw [sx1301_read_err_eq o (ssx.regs + REG_RADIO_X_DATA_READBACK) _ e hr]

/-- C10: the controller never asserts chip-select outside the outgoing
write path.  First, the externally exposed SPI `set_cs` callback with
`enable = true` returns immediately: the state — cached page, operation
counter, trace — is unchanged, so zero bus I/O is issued.  Second, in the
outgoing phase of a transaction the only chip-select assert (a CS-register
write of an odd value, bit 0 set) is immediately followed by the deassert
(CS read then CS write of an even value, bit 0 cleared), all before any
readback. -/
theorem cs_assert_only_in_outgoing (o : Oracle) (ssx : SpiSx1301) (xfr : Xfr)
    (s : St) (buf : List Nat)
    (hlen : ¬(xfr.len = 0 ∨ 3 < xfr.len))
    (htx : xfr.tx = some buf)
    (hpage : s.page = ssx.page % 256) :
    (∀ t : St, sx1301_radio_spi_set_cs o ssx true t = t) ∧
    (∀ u1 u2,
      o.wr s.time ((ssx.regs + REG_RADIO_X_ADDR) % 128) (buf.getD 0 0 % 256) = .ok u1 →
      o.wr (s.time + 1) ((ssx.regs + REG_RADIO_X_DATA) % 128)
          ((if 2 ≤ xfr.len then buf.getD 1 0 else 0) % 256) = .ok u2 →
      ∃ c1 c2,
        (sx1301_radio_spi_transfer_one o ssx xfr s).2.2.tr =
          s.tr ++
            [Ev.wr ((ssx.regs + REG_RADIO_X_ADDR) % 128) (buf.getD 0 0 % 256),
             Ev.wr ((ssx.regs + REG_RADIO_X_DATA) % 128)
               ((if 2 ≤ xfr.len then buf.getD 1 0 else 0) % 256),
             Ev.rd ((ssx.regs + REG_RADIO_X_CS) % 128),
             Ev.wr ((ssx.regs + REG_RADIO_X_CS) % 128) (c1 ||| 1),
             Ev.rd ((ssx.regs + REG_RADIO_X_CS) % 128),
             Ev.wr ((ssx.regs + REG_RADIO_X_CS) % 128) (c2 &&& 0xfe)] ++
            (match xfr.rx with
             | none => []
             | some _ => [Ev.rd ((ssx.regs + REG_RADIO_X_DATA_READBACK) % 128)]) ∧
        (c1 ||| 1) % 2 = 1 ∧ (c2 &&& 0xfe) % 2 = 0) := by
  refine ⟨fun t => by simp [sx1301_radio_spi_set_cs], ?_⟩
  intro u1 u2 hw1 hw2
  refine ⟨csRead o (s.time + 2) ssx, csRead o (s.time + 4) ssx, ?_, or_one_odd _,
    and_fe_even _⟩
  rw [transfer_one_tx_ok_trace o ssx xfr s buf u1 u2 hlen htx hpage hw1 hw2,
    Nat.mod_eq_of_lt (or_one_lt_256 _ (csRead_lt_256 o (s.time + 2) ssx)),
    Nat.mod_eq_of_lt (and_fe_lt_256 _)]

/-- Witness for C10: radio B's descriptor (page 2, block base 38), length-1
transaction with one outgoing byte on an all-succeeding bus. -/
theorem cs_assert_only_in_outgoing_witness :
    sx1301_radio_spi_set_cs oAllOk ⟨2, 38⟩ true ⟨2, 0, []⟩ = ⟨2, 0, []⟩ ∧
    ∃ c1 c2,
      (sx1301_radio_spi_transfer_one oAllOk ⟨2, 38⟩ ⟨1, some [0x12], none⟩
          ⟨2, 0, []⟩).2.2.tr =
        [Ev.wr 40 0x12, Ev.wr 38 0, Ev.rd 42, Ev.wr 42 (c1 ||| 1),
         Ev.rd 42, Ev.wr 42 (c2 &&& 0xfe)] ∧
      (c1 ||| 1) % 2 = 1 ∧ (c2 &&& 0xfe) % 2 = 0 := by
  have h := cs_assert_only_in_outgoing oAllOk ⟨2, 38⟩ ⟨1, some [0x12], none⟩
    ⟨2, 0, []⟩ [0x12] (by decide) (by rfl) (by decide)
  refine ⟨h.1 ⟨2, 0, []⟩, ?_⟩
  obtain ⟨c1, c2, htr, hodd, heven⟩ := h.2 () () (by rfl) (by rfl)
  exact ⟨c1, c2, by simpa [REG_RADIO_X_ADDR, REG_RADIO_X_DATA, REG_RADIO_X_CS] using htr,
    hodd, heven⟩

/-! ### C8: read-modify-write frame property in bring-up -/

lemma testBit_and_byte (v c i : Nat) (hv : v < 256) (h : i < 8 → c.testBit i = true) :
    (v &&& c).testBit i = v.testBit i := by
  rcases lt_or_ge i 8 with h8 | h8
  · simp [Nat.testBit_land, h h8]
  · have hv' : v.testBit i = false := by
      apply Nat.testBit_eq_false_of_lt
      calc v < 256 := hv
        _ = 2 ^ 8 := by norm_num
        _ ≤ 2 ^ i := Nat.pow_le_pow_right (by norm_num) h8
    simp [Nat.testBit_land, hv']

lemma testBit_or_byte (v m i : Nat) (h : m.testBit i = false) :
    (v ||| m).testBit i = v.testBit i := by
  simp [Nat.testBit_lor, h]

lemma and_mask_mod_256 (x m : Nat) (hm : m < 256) : (x &&& m) % 256 = x &&& m :=
  Nat.mod_eq_of_lt (lt_of_le_of_lt Nat.and_le_right hm)

lemma byte_or_lt_256 (x m : Nat) (hx : x < 256) (hm : m < 256) : x ||| m < 256 := by
  have hx8 : x < 2 ^ 8 := by norm_num; omega
  have hm8 : m < 2 ^ 8 := by norm_num; omega
  have h2 := Nat.or_lt_two_pow hx8 hm8
  norm_num at h2
  exact h2

lemma or_mod_256 (x m : Nat) (hx : x < 256) (hm : m < 256) : (x ||| m) % 256 = x ||| m :=
  Nat.mod_eq_of_lt (byte_or_lt_256 x m hx hm)

/-- C8: in a bring-up run whose reads return `v16`, `v17`, `va`, `vb`, `vc`
at the five read-modify-write steps (and whose bus operations succeed, with
the version byte 103), the value written back by each step is exactly the
value read with only the targeted mask bits changed: the full bus trace is
listed, and for every bit index outside the targeted mask the written value
agrees with the read value at that bit. -/
theorem probe_rmw_preserves_bits (o : Oracle) (v16 v17 va vb vc : Nat)
    (h1 : o.rd 0 1 = .ok 103)
    (h2 : o.wr 1 0 0 = .ok ())
    (h3 : o.wr 2 0 128 = .ok ())
    (h4 : o.rd 3 16 = .ok v16)
    (h5 : o.wr 4 16 (v16 % 256 &&& 0xf7) = .ok ())
    (h6 : o.rd 5 17 = .ok v17)
    (h7 : o.wr 6 17 (v17 % 256 &&& 0xfe) = .ok ())
    (h8 : o.wr 7 0 2 = .ok ())
    (h9 : o.rd 8 43 = .ok va)
    (h10 : o.wr 9 43 (va % 256 ||| 3) = .ok ())
    (h11 : o.rd 10 43 = .ok vb)
    (h12 : o.wr 11 43 (vb % 256 ||| 4) = .ok ())
    (h13 : o.rd 12 43 = .ok vc)
    (h14 : o.wr 13 43 (vc % 256 &&& 0xfb) = .ok ()) :
    (sx1301_probe o).2.tr =
      [Ev.rd 1, Ev.wr 0 0, Ev.wr 0 128,
       Ev.rd 16, Ev.wr 16 (v16 % 256 &&& 0xf7),
       Ev.rd 17, Ev.wr 17 (v17 % 256 &&& 0xfe),
       Ev.wr 0 2,
       Ev.rd 43, Ev.wr 43 (va % 256 ||| 3),
       Ev.rd 43, Ev.wr 43 (vb % 256 ||| 4),
       Ev.rd 43, Ev.wr 43 (vc % 256 &&& 0xfb)] ∧
    (∀ i, i ≠ 3 → (v16 % 256 &&& 0xf7).testBit i = (v16 % 256).testBit i) ∧
    (∀ i, i ≠ 0 → (v17 % 256 &&& 0xfe).testBit i = (v17 % 256).testBit i) ∧
    (∀ i, i ≠ 0 → i ≠ 1 → (va % 256 ||| 3).testBit i = (va % 256).testBit i) ∧
    (∀ i, i ≠ 2 → (vb % 256 ||| 4).testBit i = (vb % 256).testBit i) ∧
    (∀ i, i ≠ 2 → (vc % 256 &&& 0xfb).testBit i = (vc % 256).testBit i) := by
  refine ⟨?_, ?_, ?_, ?_, ?_, ?_⟩
  · simp only [sx1301_probe, after, sx1301_read, sx1301_write, sx1301_soft_reset,
      sx1301_page_switch, REG_VERSION, REG_PAGE_RESET, REG_PAGE_RESET_SOFT_RESET,
      REG_16_GLOBAL_EN, REG_17_CLK32M_EN, REG_2_43_RADIO_A_EN, REG_2_43_RADIO_B_EN,
      REG_2_43_RADIO_RST,
      show (255 ^^^ 8 : Nat) = 247 from by decide,
      show (255 ^^^ 1 : Nat) = 254 from by decide,
      show (255 ^^^ 4 : Nat) = 251 from by decide,
      show ((2 : Nat) &&& 3) = 2 from by decide,
      show ((2 : Nat) ||| 1) = 3 from by decide]
    norm_num [h1]
    norm_num [h2, h3, h4]
    rw [and_mask_mod_256 _ _ (by norm_num)]
    norm_num [h5, h6]
    rw [and_mask_mod_256 _ _ (by norm_num)]
    norm_num [h7, h8, h9]
    rw [or_mod_256 _ _ (Nat.mod_lt _ (by norm_num)) (by norm_num)]
    norm_num [h10, h11]
    rw [or_mod_256 _ _ (Nat.mod_lt _ (by norm_num)) (by norm_num)]
    norm_num [h12, h13]
    rw [and_mask_mod_256 _ _ (by norm_num)]
    norm_num [h14]
  · intro i hi
    apply testBit_and_byte _ _ _ (Nat.mod_lt _ (by norm_num))
    intro h8i
    interval_cases i <;> first | exact absurd rfl hi | decide
  · intro i hi
    apply testBit_and_byte _ _ _ (Nat.mod_lt _ (by norm_num))
    intro h8i
    interval_cases i <;> first | exact absurd rfl hi | decide
  · intro i h0 h1b
    apply testBit_or_byte
    apply Nat.testBit_eq_false_of_lt
    have h2i : 2 ≤ i := by omega
    calc (3 : Nat) < 2 ^ 2 := by norm_num
      _ ≤ 2 ^ i := Nat.pow_le_pow_right (by norm_num) h2i
  · intro i hi
    apply testBit_or_byte
    rcases lt_or_ge i 3 with h3i | h3i
    · interval_cases i <;> first | exact absurd rfl hi | decide
    · apply Nat.testBit_eq_false_of_lt
      calc (4 : Nat) < 2 ^ 3 := by norm_num
        _ ≤ 2 ^ i := Nat.pow_le_pow_right (by norm_num) h3i
  · intro i hi
    apply testBit_and_byte _ _ _ (Nat.mod_lt _ (by norm_num))
    intro h8i
    interval_cases i <;> first | exact absurd rfl hi | decide

/-- Witness for C8: the all-zero well-behaved device; all reads return 0
(version 103), so every masked write-back value is 0 or the bare mask. -/
theorem probe_rmw_preserves_bits_witness :
    (sx1301_probe oGood).2.tr =
      [Ev.rd 1, Ev.wr 0 0, Ev.wr 0 128, Ev.rd 16, Ev.wr 16 0, Ev.rd 17, Ev.wr 17 0,
       Ev.wr 0 2, Ev.rd 43, Ev.wr 43 3, Ev.rd 43, Ev.wr 43 4, Ev.rd 43, Ev.wr 43 0] ∧
    ((0 : Nat) % 256 &&& 0xf7).testBit 7 = ((0 : Nat) % 256).testBit 7 := by
  have h := probe_rmw_preserves_bits oGood 0 0 0 0 0 rfl rfl rfl rfl rfl rfl rfl rfl
    rfl rfl rfl rfl rfl rfl
  refine ⟨?_, h.2.1 7 (by norm_num)⟩
  rw [h.1]
  decide

end SX1301
